import Mathlib

/-!
Verification development for the `evalexpr` expression-evaluation crate.

The repository ships `src/interface/mod.rs` (the public entry points `eval`,
`eval_with_configuration`, `build_operator_tree` and the typed convenience
functions).  The core pipeline it calls — tokenizer, operator-tree builder,
value model, configuration abstraction and evaluator — is not present in the
sources; those parts are modelled from the specification (each such definition
carries a doc comment starting `Modelled from the spec:`).  The interface
functions themselves are translated directly from `src/interface/mod.rs`.

Machine integers (`IntType = i64`) are modelled as `Int` with explicit range
checks where the spec demands overflow detection; `FloatType = f64` is
modelled as `Rat` (no claim under consideration exercises float rounding).
-/

/-- Modelled from the spec: `FloatType` (64-bit float) of the missing value
model, represented as `Rat`; no claim exercises IEEE rounding. -/
abbrev FloatType := Rat

/-- Modelled from the spec: `IntType` (64-bit signed integer) of the missing
value model, represented as unbounded `Int`; the 64-bit range is enforced by
explicit checks in the arithmetic operators. -/
abbrev IntType := Int

/-- Smallest value of a 64-bit signed integer. -/
def intTypeMin : Int := -(2 ^ 63)

/-- Largest value of a 64-bit signed integer. -/
def intTypeMax : Int := 2 ^ 63 - 1

/-- Modelled from the spec: the tagged-union runtime `Value` of the missing
value model: Int, Float, Boolean, String, Tuple (ordered sequence of values)
and Empty/unit. -/
inductive Value where
  | int (i : IntType)
  | float (f : FloatType)
  | boolean (b : Bool)
  | string (s : String)
  | tuple (elements : List Value)
  | empty
deriving Repr

/-- Modelled from the spec: `TupleType`, the payload of a tuple value. -/
abbrev TupleType := List Value

/-- The kind tag of a value, used by type errors naming expected and actual
kinds. -/
inductive ValueKind where
  | int
  | float
  | boolean
  | string
  | tuple
  | empty
deriving Repr, DecidableEq

/-- The kind of a runtime value. -/
def valueKind : Value → ValueKind
  | Value.int _ => ValueKind.int
  | Value.float _ => ValueKind.float
  | Value.boolean _ => ValueKind.boolean
  | Value.string _ => ValueKind.string
  | Value.tuple _ => ValueKind.tuple
  | Value.empty => ValueKind.empty

/-- Modelled from the spec: the causes of an `ArithmeticError` (integer
overflow, division/modulo by zero). -/
inductive ArithmeticErrorKind where
  | overflow
  | divisionByZero
  | moduloByZero
  | negativeExponent
deriving Repr, DecidableEq

/-- Modelled from the spec: the error taxonomy (LexError, ParseError,
LookupError split by variable/function, TypeError naming expected and actual
kinds, ArithmeticError) together with the typed-extraction errors
("expected kind X, got kind Y") used by the convenience layer. -/
inductive Error where
  | lexError (position : Nat)
  | parseError (message : String)
  | variableIdentifierNotFound (identifier : String)
  | functionIdentifierNotFound (identifier : String)
  | typeError (expected : ValueKind) (actual : ValueKind)
  | arithmeticError (kind : ArithmeticErrorKind)
  | expectedString (actual : Value)
  | expectedInt (actual : Value)
  | expectedFloat (actual : Value)
  | expectedBoolean (actual : Value)
  | expectedTuple (actual : Value)
deriving Repr

/-- `Error::expected_string(actual)` of the source interface. -/
def Error.expected_string (actual : Value) : Error := Error.expectedString actual

/-- `Error::expected_int(actual)` of the source interface. -/
def Error.expected_int (actual : Value) : Error := Error.expectedInt actual

/-- `Error::expected_float(actual)` of the source interface. -/
def Error.expected_float (actual : Value) : Error := Error.expectedFloat actual

/-- `Error::expected_boolean(actual)` of the source interface. -/
def Error.expected_boolean (actual : Value) : Error := Error.expectedBoolean actual

/-- `Error::expected_tuple(actual)` of the source interface. -/
def Error.expected_tuple (actual : Value) : Error := Error.expectedTuple actual

/-- Modelled from the spec: the configuration capability contract — resolve a
variable name to an optional value, and invoke a function name on an argument
tuple. -/
structure Configuration where
  resolveVariable : String → Option Value
  callFunction : String → Value → Except Error Value

/-- Modelled from the spec: the Empty configuration — both resolution
operations always fail with a "not found" error. -/
def EmptyConfiguration : Configuration where
  resolveVariable := fun _ => none
  callFunction := fun identifier _ => Except.error (Error.functionIdentifierNotFound identifier)

/-- Modelled from the spec: the binary operators of the expression language. -/
inductive BinaryOperator where
  | add
  | sub
  | mul
  | div
  | mod
  | exp
  | eq
  | neq
  | lt
  | leq
  | gt
  | geq
  | and
  | or
deriving Repr, DecidableEq

/-- Modelled from the spec: the prefix unary operators `- + !`. -/
inductive UnaryOperator where
  | neg
  | pos
  | not
deriving Repr, DecidableEq

/-- Modelled from the spec: the immutable operator-tree `Node` — literal,
variable reference, function call, unary operation, binary operation and tuple
constructor, with arity fixed by the tag. -/
inductive Node where
  | literal (value : Value)
  | variableIdentifier (identifier : String)
  | functionCall (identifier : String) (args : List Node)
  | unaryOperation (op : UnaryOperator) (child : Node)
  | binaryOperation (op : BinaryOperator) (left : Node) (right : Node)
  | tupleConstructor (children : List Node)
deriving Repr

/-- Lexicographic code-point comparison of two character sequences, the
string ordering of the value model. -/
def charListLt : List Char → List Char → Bool
  | [], [] => false
  | [], _ :: _ => true
  | _ :: _, [] => false
  | c :: cs, d :: ds =>
    if c.toNat < d.toNat then true
    else if d.toNat < c.toNat then false
    else charListLt cs ds

/-- `<` on strings: lexicographic by code point. -/
def stringLt (a b : String) : Bool := charListLt a.data b.data

/-- Result of an integer arithmetic step: the mathematical result when it
fits in 64 bits, otherwise an overflow `ArithmeticError`. -/
def checkedInt (i : Int) : Except Error Value :=
  if intTypeMin ≤ i ∧ i ≤ intTypeMax then Except.ok (Value.int i)
  else Except.error (Error.arithmeticError ArithmeticErrorKind.overflow)

/-- Modelled from the spec: equality between two values — numeric under
Int→Float promotion, same-kind for Boolean/String, element-wise left-to-right
for tuples with unequal length a defined "not equal" outcome, and any other
cross-kind pair a type error. -/
def valueEq : Value → Value → Except Error Bool
  | Value.int a, Value.int b => Except.ok (a = b : Bool)
  | Value.int a, Value.float b => Except.ok ((a : Rat) = b : Bool)
  | Value.float a, Value.int b => Except.ok (a = (b : Rat) : Bool)
  | Value.float a, Value.float b => Except.ok (a = b : Bool)
  | Value.boolean a, Value.boolean b => Except.ok (a = b : Bool)
  | Value.string a, Value.string b => Except.ok (a = b : Bool)
  | Value.tuple xs, Value.tuple ys =>
    if xs.length = ys.length then tupleEq xs ys else Except.ok false
  | Value.empty, Value.empty => Except.ok true
  | a, b => Except.error (Error.typeError (valueKind a) (valueKind b))
where
  /-- Element-wise left-to-right tuple equality on equal-length tuples;
  unequal lengths were already decided "not equal" before this point. -/
  tupleEq : List Value → List Value → Except Error Bool
    | [], [] => Except.ok true
    | [], _ :: _ => Except.ok false
    | _ :: _, [] => Except.ok false
    | x :: xs, y :: ys =>
      match valueEq x y with
      | Except.error e => Except.error e
      | Except.ok false => Except.ok false
      | Except.ok true => tupleEq xs ys

/-- Modelled from the spec: strict ordering between two values — numeric under
promotion, String lexicographic by code point, Boolean false < true, Tuple
element-wise left-to-right requiring equal length (unequal length is an error
for ordering operators), anything else a type error. -/
def valueLt : Value → Value → Except Error Bool
  | Value.int a, Value.int b => Except.ok (a < b : Bool)
  | Value.int a, Value.float b => Except.ok ((a : Rat) < b : Bool)
  | Value.float a, Value.int b => Except.ok (a < (b : Rat) : Bool)
  | Value.float a, Value.float b => Except.ok (a < b : Bool)
  | Value.boolean a, Value.boolean b => Except.ok (!a && b)
  | Value.string a, Value.string b => Except.ok (stringLt a b)
  | Value.tuple xs, Value.tuple ys =>
    if xs.length = ys.length then tupleLt xs ys
    else Except.error (Error.typeError ValueKind.tuple ValueKind.tuple)
  | a, b => Except.error (Error.typeError (valueKind a) (valueKind b))
where
  /-- Element-wise left-to-right lexicographic tuple ordering on equal-length
  tuples. -/
  tupleLt : List Value → List Value → Except Error Bool
    | [], _ => Except.ok false
    | _ :: _, [] => Except.ok false
    | x :: xs, y :: ys =>
      match valueLt x y with
      | Except.error e => Except.error e
      | Except.ok true => Except.ok true
      | Except.ok false =>
        match valueEq x y with
        | Except.error e => Except.error e
        | Except.ok true => tupleLt xs ys
        | Except.ok false => Except.ok false

/-- Modelled from the spec: the `+` operator — Int stays Int (with overflow
check), Int/Float promote, String + String concatenates, any other pair is a
type error naming both kinds. -/
def evalAdd : Value → Value → Except Error Value
  | Value.int a, Value.int b => checkedInt (a + b)
  | Value.int a, Value.float b => Except.ok (Value.float ((a : Rat) + b))
  | Value.float a, Value.int b => Except.ok (Value.float (a + (b : Rat)))
  | Value.float a, Value.float b => Except.ok (Value.float (a + b))
  | Value.string a, Value.string b => Except.ok (Value.string (a ++ b))
  | a, b => Except.error (Error.typeError (valueKind a) (valueKind b))

/-- Modelled from the spec: the binary `-` operator under numeric promotion,
with overflow check on the Int/Int case. -/
def evalSub : Value → Value → Except Error Value
  | Value.int a, Value.int b => checkedInt (a - b)
  | Value.int a, Value.float b => Except.ok (Value.float ((a : Rat) - b))
  | Value.float a, Value.int b => Except.ok (Value.float (a - (b : Rat)))
  | Value.float a, Value.float b => Except.ok (Value.float (a - b))
  | a, b => Except.error (Error.typeError (valueKind a) (valueKind b))

/-- Modelled from the spec: the `*` operator under numeric promotion, with
overflow check on the Int/Int case. -/
def evalMul : Value → Value → Except Error Value
  | Value.int a, Value.int b => checkedInt (a * b)
  | Value.int a, Value.float b => Except.ok (Value.float ((a : Rat) * b))
  | Value.float a, Value.int b => Except.ok (Value.float (a * (b : Rat)))
  | Value.float a, Value.float b => Except.ok (Value.float (a * b))
  | a, b => Except.error (Error.typeError (valueKind a) (valueKind b))

/-- Modelled from the spec: the `/` operator — Int/Int is truncating 64-bit
division with a division-by-zero error and an overflow check; mixed and float
operands divide as floats. -/
def evalDiv : Value → Value → Except Error Value
  | Value.int a, Value.int b =>
    if b = 0 then Except.error (Error.arithmeticError ArithmeticErrorKind.divisionByZero)
    else checkedInt (Int.tdiv a b)
  | Value.int a, Value.float b => Except.ok (Value.float ((a : Rat) / b))
  | Value.float a, Value.int b => Except.ok (Value.float (a / (b : Rat)))
  | Value.float a, Value.float b => Except.ok (Value.float (a / b))
  | a, b => Except.error (Error.typeError (valueKind a) (valueKind b))

/-- Modelled from the spec: the `%` operator — Int/Int is the truncating
remainder with a modulo-by-zero error; mixed and float operands take the
float remainder (modelled on rationals). -/
def evalMod : Value → Value → Except Error Value
  | Value.int a, Value.int b =>
    if b = 0 then Except.error (Error.arithmeticError ArithmeticErrorKind.moduloByZero)
    else checkedInt (Int.tmod a b)
  | Value.int a, Value.float b => Except.ok (Value.float ((a : Rat) - b * ((a : Rat) / b).floor))
  | Value.float a, Value.int b => Except.ok (Value.float (a - (b : Rat) * (a / (b : Rat)).floor))
  | Value.float a, Value.float b => Except.ok (Value.float (a - b * (a / b).floor))
  | a, b => Except.error (Error.typeError (valueKind a) (valueKind b))

/-- Modelled from the spec: the `^` (power) operator — Int/Int with a
non-negative exponent stays Int with an overflow check, a negative exponent is
an arithmetic error; promoted cases raise a rational base to the integral part
of the exponent (float rounding is outside this model). -/
def evalExp : Value → Value → Except Error Value
  | Value.int a, Value.int b =>
    if b < 0 then Except.error (Error.arithmeticError ArithmeticErrorKind.negativeExponent)
    else checkedInt (a ^ b.toNat)
  | Value.int a, Value.float b => Except.ok (Value.float (ratPow (a : Rat) b.floor))
  | Value.float a, Value.int b => Except.ok (Value.float (ratPow a b))
  | Value.float a, Value.float b => Except.ok (Value.float (ratPow a b.floor))
  | a, b => Except.error (Error.typeError (valueKind a) (valueKind b))
where
  /-- Raise a rational to an integer power (zero when inverting zero). -/
  ratPow (a : Rat) (b : Int) : Rat :=
    if 0 ≤ b then a ^ b.toNat else (a ^ (-b).toNat)⁻¹

/-- Modelled from the spec: logical operators require Boolean operands on both
sides — the non-short-circuit combination step for `&&`. -/
def evalAnd : Value → Value → Except Error Value
  | Value.boolean a, Value.boolean b => Except.ok (Value.boolean (a && b))
  | a, b => Except.error (Error.typeError (valueKind a) (valueKind b))

/-- Modelled from the spec: logical operators require Boolean operands on both
sides — the non-short-circuit combination step for `||`. -/
def evalOr : Value → Value → Except Error Value
  | Value.boolean a, Value.boolean b => Except.ok (Value.boolean (a || b))
  | a, b => Except.error (Error.typeError (valueKind a) (valueKind b))

/-- Modelled from the spec: apply a binary operator to two already-evaluated
operand values (short-circuiting happens before this step, in the evaluator). -/
def applyBinaryOperator : BinaryOperator → Value → Value → Except Error Value
  | BinaryOperator.add, a, b => evalAdd a b
  | BinaryOperator.sub, a, b => evalSub a b
  | BinaryOperator.mul, a, b => evalMul a b
  | BinaryOperator.div, a, b => evalDiv a b
  | BinaryOperator.mod, a, b => evalMod a b
  | BinaryOperator.exp, a, b => evalExp a b
  | BinaryOperator.eq, a, b => (valueEq a b).map Value.boolean
  | BinaryOperator.neq, a, b => (valueEq a b).map (fun r => Value.boolean (!r))
  | BinaryOperator.lt, a, b => (valueLt a b).map Value.boolean
  | BinaryOperator.gt, a, b => (valueLt b a).map Value.boolean
  | BinaryOperator.leq, a, b => (valueLt b a).map (fun r => Value.boolean (!r))
  | BinaryOperator.geq, a, b => (valueLt a b).map (fun r => Value.boolean (!r))
  | BinaryOperator.and, a, b => evalAnd a b
  | BinaryOperator.or, a, b => evalOr a b

/-- Modelled from the spec: apply a prefix unary operator to an evaluated
value — `-`/`+` on numbers (with overflow check on Int negation), `!` on
Booleans, a type error naming the kinds otherwise. -/
def applyUnaryOperator : UnaryOperator → Value → Except Error Value
  | UnaryOperator.neg, Value.int a => checkedInt (-a)
  | UnaryOperator.neg, Value.float a => Except.ok (Value.float (-a))
  | UnaryOperator.neg, v => Except.error (Error.typeError ValueKind.int (valueKind v))
  | UnaryOperator.pos, Value.int a => Except.ok (Value.int a)
  | UnaryOperator.pos, Value.float a => Except.ok (Value.float a)
  | UnaryOperator.pos, v => Except.error (Error.typeError ValueKind.int (valueKind v))
  | UnaryOperator.not, Value.boolean b => Except.ok (Value.boolean (!b))
  | UnaryOperator.not, v => Except.error (Error.typeError ValueKind.boolean (valueKind v))

mutual

/-- Modelled from the spec: `Node::eval_with_configuration` — the recursive
tree-walking evaluator: literals return their value, variable references
resolve through the configuration (LookupError when absent), function calls
evaluate arguments left-to-right into a tuple and invoke the configuration,
`&&`/`||` evaluate the left operand first and short-circuit, all other binary
operators evaluate both operands left-to-right, and tuple constructors collect
children left-to-right. -/
def Node.eval_with_configuration (node : Node) (configuration : Configuration) :
    Except Error Value :=
  match node with
  | Node.literal v => Except.ok v
  | Node.variableIdentifier identifier =>
    match configuration.resolveVariable identifier with
    | some v => Except.ok v
    | none => Except.error (Error.variableIdentifierNotFound identifier)
  | Node.functionCall identifier args =>
    match evalNodeList args configuration with
    | Except.error e => Except.error e
    | Except.ok vs => configuration.callFunction identifier (Value.tuple vs)
  | Node.unaryOperation op child =>
    match child.eval_with_configuration configuration with
    | Except.error e => Except.error e
    | Except.ok v => applyUnaryOperator op v
  | Node.binaryOperation op left right =>
    match left.eval_with_configuration configuration with
    | Except.error e => Except.error e
    | Except.ok lv =>
      match op, lv with
      | BinaryOperator.and, Value.boolean false => Except.ok (Value.boolean false)
      | BinaryOperator.or, Value.boolean true => Except.ok (Value.boolean true)
      | _, _ =>
        match right.eval_with_configuration configuration with
        | Except.error e => Except.error e
        | Except.ok rv => applyBinaryOperator op lv rv
  | Node.tupleConstructor children =>
    match evalNodeList children configuration with
    | Except.error e => Except.error e
    | Except.ok vs => Except.ok (Value.tuple vs)

/-- Left-to-right evaluation of a sequence of sibling nodes, stopping at the
first error. -/
def evalNodeList (nodes : List Node) (configuration : Configuration) :
    Except Error (List Value) :=
  match nodes with
  | [] => Except.ok []
  | n :: ns =>
    match n.eval_with_configuration configuration with
    | Except.error e => Except.error e
    | Except.ok v =>
      match evalNodeList ns configuration with
      | Except.error e => Except.error e
      | Except.ok vs => Except.ok (v :: vs)

end

/-- Modelled from the spec: one lexical unit produced by the tokenizer: a
literal (integer, float, boolean, string), an identifier, an operator or
punctuation symbol.  Unary `-`/`+` are disambiguated by the lexer. -/
inductive Token where
  | intLiteral (i : IntType)
  | floatLiteral (f : FloatType)
  | booleanLiteral (b : Bool)
  | stringLiteral (s : String)
  | identifier (name : String)
  | plus
  | minus
  | star
  | slash
  | percent
  | caret
  | eq
  | neq
  | lt
  | leq
  | gt
  | geq
  | and
  | or
  | not
  | unaryPlus
  | unaryMinus
  | lparen
  | rparen
  | comma
  | assign
deriving Repr, DecidableEq

/-- First character of an identifier: letter or underscore. -/
def isIdentStart (c : Char) : Bool := c.isAlpha || c = '_'

/-- Continuation character of an identifier: alphanumeric or underscore. -/
def isIdentCont (c : Char) : Bool := c.isAlphanum || c = '_'

/-- Numeric value of a sequence of decimal digit characters. -/
def digitsToNat (ds : List Char) : Nat :=
  ds.foldl (fun acc c => 10 * acc + (c.toNat - 48)) 0

/-- Ten raised to an integer power, as a rational. -/
def ratPow10 (e : Int) : Rat :=
  if 0 ≤ e then (10 : Rat) ^ e.toNat else ((10 : Rat) ^ (-e).toNat)⁻¹

/-- The rational value of a decimal float literal with integer digits `ds`,
fraction digits `fs` and exponent `e`. -/
def floatOfParts (ds fs : List Char) (e : Int) : Rat :=
  ((digitsToNat ds : Rat) + (digitsToNat fs : Rat) / (10 : Rat) ^ fs.length) * ratPow10 e

/-- Parse the signed digits of an exponent part (the `e` itself already
consumed): the exponent value, the remaining characters and the count
consumed; `none` on a malformed (empty-digit) exponent. -/
def lexExponent (cs : List Char) : Option (Int × List Char × Nat) :=
  match cs with
  | '+' :: r =>
    let p := r.span Char.isDigit
    if p.1.isEmpty then none else some ((digitsToNat p.1 : Int), p.2, p.1.length + 1)
  | '-' :: r =>
    let p := r.span Char.isDigit
    if p.1.isEmpty then none else some (-(digitsToNat p.1 : Int), p.2, p.1.length + 1)
  | r =>
    let p := r.span Char.isDigit
    if p.1.isEmpty then none else some ((digitsToNat p.1 : Int), p.2, p.1.length)

/-- Modelled from the spec: lex a numeric literal (digits, optional single
decimal point, optional exponent; a malformed exponent is an error, an
integer literal outside the 64-bit range is a bad literal).  Returns the
token, the remaining characters and the next position. -/
def lexNumber (cs : List Char) (pos : Nat) : Except Error (Token × List Char × Nat) :=
  let p := cs.span Char.isDigit
  match p.2 with
  | '.' :: rest2 =>
    let q := rest2.span Char.isDigit
    let basePos := pos + p.1.length + 1 + q.1.length
    match q.2 with
    | 'e' :: rest4 =>
      match lexExponent rest4 with
      | none => Except.error (Error.lexError (basePos + 1))
      | some (e, rest5, n) =>
        Except.ok (Token.floatLiteral (floatOfParts p.1 q.1 e), rest5, basePos + 1 + n)
    | 'E' :: rest4 =>
      match lexExponent rest4 with
      | none => Except.error (Error.lexError (basePos + 1))
      | some (e, rest5, n) =>
        Except.ok (Token.floatLiteral (floatOfParts p.1 q.1 e), rest5, basePos + 1 + n)
    | _ => Except.ok (Token.floatLiteral (floatOfParts p.1 q.1 0), q.2, basePos)
  | 'e' :: rest2 =>
    match lexExponent rest2 with
    | none => Except.error (Error.lexError (pos + p.1.length + 1))
    | some (e, rest3, n) =>
      Except.ok (Token.floatLiteral (floatOfParts p.1 [] e), rest3, pos + p.1.length + 1 + n)
  | 'E' :: rest2 =>
    match lexExponent rest2 with
    | none => Except.error (Error.lexError (pos + p.1.length + 1))
    | some (e, rest3, n) =>
      Except.ok (Token.floatLiteral (floatOfParts p.1 [] e), rest3, pos + p.1.length + 1 + n)
  | rest =>
    if (digitsToNat p.1 : Int) ≤ intTypeMax then
      Except.ok (Token.intLiteral (digitsToNat p.1 : Int), rest, pos + p.1.length)
    else Except.error (Error.lexError pos)

/-- Modelled from the spec: lex the body of a quoted string literal with
backslash-escape handling; an unterminated quote or invalid escape is an
error.  `acc` holds the characters read so far, reversed. -/
def lexStringLiteral : List Char → List Char → Nat → Except Error (String × List Char × Nat)
  | [], _, pos => Except.error (Error.lexError pos)
  | '"' :: rest, acc, pos => Except.ok (String.mk acc.reverse, rest, pos + 1)
  | '\\' :: c :: rest, acc, pos =>
    if c = '"' then lexStringLiteral rest ('"' :: acc) (pos + 2)
    else if c = '\\' then lexStringLiteral rest ('\\' :: acc) (pos + 2)
    else if c = 'n' then lexStringLiteral rest ('\n' :: acc) (pos + 2)
    else if c = 't' then lexStringLiteral rest ('\t' :: acc) (pos + 2)
    else Except.error (Error.lexError pos)
  | ['\\'], _, pos => Except.error (Error.lexError pos)
  | c :: rest, acc, pos => lexStringLiteral rest (c :: acc) (pos + 1)

/-- Modelled from the spec: lex one operator or punctuation symbol, longest
match first; `prevTerm` tells whether the previous token can terminate an
operand, deciding unary versus binary `+`/`-`.  Returns the token, remaining
characters, next position and the new `prevTerm`. -/
def lexOperator : List Char → Bool → Nat → Except Error (Token × List Char × Nat × Bool)
  | '=' :: '=' :: r, _, pos => Except.ok (Token.eq, r, pos + 2, false)
  | '!' :: '=' :: r, _, pos => Except.ok (Token.neq, r, pos + 2, false)
  | '<' :: '=' :: r, _, pos => Except.ok (Token.leq, r, pos + 2, false)
  | '>' :: '=' :: r, _, pos => Except.ok (Token.geq, r, pos + 2, false)
  | '&' :: '&' :: r, _, pos => Except.ok (Token.and, r, pos + 2, false)
  | '|' :: '|' :: r, _, pos => Except.ok (Token.or, r, pos + 2, false)
  | '=' :: r, _, pos => Except.ok (Token.assign, r, pos + 1, false)
  | '!' :: r, _, pos => Except.ok (Token.not, r, pos + 1, false)
  | '<' :: r, _, pos => Except.ok (Token.lt, r, pos + 1, false)
  | '>' :: r, _, pos => Except.ok (Token.gt, r, pos + 1, false)
  | '+' :: r, prevTerm, pos =>
    Except.ok (if prevTerm then Token.plus else Token.unaryPlus, r, pos + 1, false)
  | '-' :: r, prevTerm, pos =>
    Except.ok (if prevTerm then Token.minus else Token.unaryMinus, r, pos + 1, false)
  | '*' :: r, _, pos => Except.ok (Token.star, r, pos + 1, false)
  | '/' :: r, _, pos => Except.ok (Token.slash, r, pos + 1, false)
  | '%' :: r, _, pos => Except.ok (Token.percent, r, pos + 1, false)
  | '^' :: r, _, pos => Except.ok (Token.caret, r, pos + 1, false)
  | '(' :: r, _, pos => Except.ok (Token.lparen, r, pos + 1, false)
  | ')' :: r, _, pos => Except.ok (Token.rparen, r, pos + 1, true)
  | ',' :: r, _, pos => Except.ok (Token.comma, r, pos + 1, false)
  | _, _, pos => Except.error (Error.lexError pos)

/-- Modelled from the spec: the tokenizer main loop — skip whitespace, lex
numbers, strings, identifiers (reinterpreting `true`/`false` as boolean
literals) and operators, tracking whether the previous token can terminate an
operand.  `fuel` bounds the iteration count; every step consumes at least one
character, so `length + 1` fuel always suffices. -/
def tokenizeAux : Nat → List Char → Bool → Nat → Except Error (List Token)
  | 0, _, _, pos => Except.error (Error.lexError pos)
  | _ + 1, [], _, _ => Except.ok []
  | fuel + 1, c :: rest, prevTerm, pos =>
    if c.isWhitespace then tokenizeAux fuel rest prevTerm (pos + 1)
    else if c.isDigit then
      match lexNumber (c :: rest) pos with
      | Except.error e => Except.error e
      | Except.ok (tok, rest2, pos2) =>
        match tokenizeAux fuel rest2 true pos2 with
        | Except.error e => Except.error e
        | Except.ok ts => Except.ok (tok :: ts)
    else if c = '"' then
      match lexStringLiteral rest [] (pos + 1) with
      | Except.error e => Except.error e
      | Except.ok (s, rest2, pos2) =>
        match tokenizeAux fuel rest2 true pos2 with
        | Except.error e => Except.error e
        | Except.ok ts => Except.ok (Token.stringLiteral s :: ts)
    else if isIdentStart c then
      let p := (c :: rest).span isIdentCont
      let name := String.mk p.1
      let tok :=
        if name = "true" then Token.booleanLiteral true
        else if name = "false" then Token.booleanLiteral false
        else Token.identifier name
      match tokenizeAux fuel p.2 true (pos + p.1.length) with
      | Except.error e => Except.error e
      | Except.ok ts => Except.ok (tok :: ts)
    else
      match lexOperator (c :: rest) prevTerm pos with
      | Except.error e => Except.error e
      | Except.ok (tok, rest2, pos2, term2) =>
        match tokenizeAux fuel rest2 term2 pos2 with
        | Except.error e => Except.error e
        | Except.ok ts => Except.ok (tok :: ts)

/-- Modelled from the spec: `token::tokenize` — raw text to an ordered token
sequence, or a positional `LexError`. -/
def tokenize (string : String) : Except Error (List Token) :=
  tokenizeAux (string.data.length + 1) string.data false 0

/-- Modelled from the spec: the fixed precedence table of binary operators —
`||` 2, `&&` 3, `== !=` 4, `< <= > >=` 5, `+ -` 6, `* / %` 7, `^` 8 — with
`^` the only right-associative one.  Returns `none` for tokens that are not
binary operators. -/
def binaryOperatorOfToken : Token → Option (BinaryOperator × Nat × Bool)
  | Token.or => some (BinaryOperator.or, 2, false)
  | Token.and => some (BinaryOperator.and, 3, false)
  | Token.eq => some (BinaryOperator.eq, 4, false)
  | Token.neq => some (BinaryOperator.neq, 4, false)
  | Token.lt => some (BinaryOperator.lt, 5, false)
  | Token.leq => some (BinaryOperator.leq, 5, false)
  | Token.gt => some (BinaryOperator.gt, 5, false)
  | Token.geq => some (BinaryOperator.geq, 5, false)
  | Token.plus => some (BinaryOperator.add, 6, false)
  | Token.minus => some (BinaryOperator.sub, 6, false)
  | Token.star => some (BinaryOperator.mul, 7, false)
  | Token.slash => some (BinaryOperator.div, 7, false)
  | Token.percent => some (BinaryOperator.mod, 7, false)
  | Token.caret => some (BinaryOperator.exp, 8, true)
  | _ => none

/-- A comma-separated sequence collapses to its sole element when it has one
and to a tuple-constructor node otherwise. -/
def nodeOfCommaSequence : List Node → Node
  | [n] => n
  | ns => Node.tupleConstructor ns

mutual

/-- Modelled from the spec: parse a primary expression — a literal, an
identifier (a function call when immediately followed by `(`), a
parenthesized expression (which may be a tuple via commas).  `fuel` bounds
recursion depth. -/
def parsePrimary (fuel : Nat) (toks : List Token) : Except Error (Node × List Token) :=
  match fuel, toks with
  | 0, _ => Except.error (Error.parseError "expression too deep")
  | _ + 1, [] => Except.error (Error.parseError "unexpected end of input")
  | _ + 1, Token.intLiteral i :: r => Except.ok (Node.literal (Value.int i), r)
  | _ + 1, Token.floatLiteral f :: r => Except.ok (Node.literal (Value.float f), r)
  | _ + 1, Token.booleanLiteral b :: r => Except.ok (Node.literal (Value.boolean b), r)
  | _ + 1, Token.stringLiteral s :: r => Except.ok (Node.literal (Value.string s), r)
  | fuel + 1, Token.identifier name :: Token.lparen :: r =>
    match r with
    | Token.rparen :: r2 => Except.ok (Node.functionCall name [], r2)
    | _ =>
      match parseCommaSequence fuel r with
      | Except.error e => Except.error e
      | Except.ok (elems, Token.rparen :: r2) => Except.ok (Node.functionCall name elems, r2)
      | Except.ok (_, _) => Except.error (Error.parseError "unmatched parenthesis")
  | _ + 1, Token.identifier name :: r => Except.ok (Node.variableIdentifier name, r)
  | fuel + 1, Token.lparen :: r =>
    match parseCommaSequence fuel r with
    | Except.error e => Except.error e
    | Except.ok (elems, Token.rparen :: r2) => Except.ok (nodeOfCommaSequence elems, r2)
    | Except.ok (_, _) => Except.error (Error.parseError "unmatched parenthesis")
  | _ + 1, _ => Except.error (Error.parseError "unexpected token")
termination_by structural fuel

/-- Modelled from the spec: parse a chain of prefix unary operators
(precedence 9, binding tighter than every binary operator) followed by a
primary expression. -/
def parseUnary (fuel : Nat) (toks : List Token) : Except Error (Node × List Token) :=
  match fuel, toks with
  | 0, _ => Except.error (Error.parseError "expression too deep")
  | fuel + 1, Token.unaryMinus :: r =>
    match parseUnary fuel r with
    | Except.error e => Except.error e
    | Except.ok (n, r2) => Except.ok (Node.unaryOperation UnaryOperator.neg n, r2)
  | fuel + 1, Token.unaryPlus :: r =>
    match parseUnary fuel r with
    | Except.error e => Except.error e
    | Except.ok (n, r2) => Except.ok (Node.unaryOperation UnaryOperator.pos n, r2)
  | fuel + 1, Token.not :: r =>
    match parseUnary fuel r with
    | Except.error e => Except.error e
    | Except.ok (n, r2) => Except.ok (Node.unaryOperation UnaryOperator.not n, r2)
  | fuel + 1, toks => parsePrimary fuel toks
termination_by structural fuel

/-- Modelled from the spec: precedence-climbing parse of a binary-operator
expression whose operators all have precedence at least `minPrec`. -/
def parseBinary (fuel minPrec : Nat) (toks : List Token) : Except Error (Node × List Token) :=
  match fuel with
  | 0 => Except.error (Error.parseError "expression too deep")
  | fuel + 1 =>
    match parseUnary fuel toks with
    | Except.error e => Except.error e
    | Except.ok (lhs, r) => parseBinaryLoop fuel minPrec lhs r
termination_by structural fuel

/-- The climbing loop: while the next token is a binary operator of
precedence at least `minPrec`, parse its right operand at precedence `p + 1`
(or `p` when right-associative) and fold it into the left-hand side. -/
def parseBinaryLoop (fuel : Nat) (minPrec : Nat) (lhs : Node) (toks : List Token) :
    Except Error (Node × List Token) :=
  match fuel with
  | 0 => Except.error (Error.parseError "expression too deep")
  | fuel + 1 =>
    match toks with
    | [] => Except.ok (lhs, toks)
    | t :: r =>
      match binaryOperatorOfToken t with
      | none => Except.ok (lhs, toks)
      | some (op, p, rightAssoc) =>
        if minPrec ≤ p then
          match parseBinary fuel (if rightAssoc then p else p + 1) r with
          | Except.error e => Except.error e
          | Except.ok (rhs, r2) =>
            parseBinaryLoop fuel minPrec (Node.binaryOperation op lhs rhs) r2
        else Except.ok (lhs, toks)
termination_by structural fuel

/-- Modelled from the spec: parse a comma-separated sequence (precedence 1)
of at least one expression, for tuple construction and argument lists. -/
def parseCommaSequence (fuel : Nat) (toks : List Token) :
    Except Error (List Node × List Token) :=
  match fuel with
  | 0 => Except.error (Error.parseError "expression too deep")
  | fuel + 1 =>
    match parseBinary fuel 2 toks with
    | Except.error e => Except.error e
    | Except.ok (n, r) => parseCommaSequenceLoop fuel [n] r
termination_by structural fuel

/-- The comma loop: collect further comma-separated elements; `acc` holds the
elements parsed so far, reversed. -/
def parseCommaSequenceLoop (fuel : Nat) (acc : List Node) (toks : List Token) :
    Except Error (List Node × List Token) :=
  match fuel with
  | 0 => Except.error (Error.parseError "expression too deep")
  | fuel + 1 =>
    match toks with
    | Token.comma :: r =>
      match parseBinary fuel 2 r with
      | Except.error e => Except.error e
      | Except.ok (n, r2) => parseCommaSequenceLoop fuel (n :: acc) r2
    | _ => Except.ok (acc.reverse, toks)
termination_by structural fuel

end

/-- Modelled from the spec: `tree::tokens_to_operator_tree` — build the
operator tree from the token sequence: a top-level comma sequence becomes a
tuple node (a single element stays that element), and trailing tokens after a
complete expression are a parse error.  The fuel bounds recursion depth and
is far larger than any parse of the given tokens can need. -/
def tokens_to_operator_tree (tokens : List Token) : Except Error Node :=
  match parseCommaSequence (16 * tokens.length + 16) tokens with
  | Except.error e => Except.error e
  | Except.ok (elems, []) => Except.ok (nodeOfCommaSequence elems)
  | Except.ok (_, _ :: _) => Except.error (Error.parseError "trailing tokens")

/-- `eval_with_configuration` from `src/interface/mod.rs`: evaluate the
expression string with the given configuration —
`tree::tokens_to_operator_tree(token::tokenize(string)?)?.eval_with_configuration(configuration)`. -/
def eval_with_configuration (string : String) (configuration : Configuration) :
    Except Error Value :=
  match tokenize string with
  | Except.error e => Except.error e
  | Except.ok tokens =>
    match tokens_to_operator_tree tokens with
    | Except.error e => Except.error e
    | Except.ok node => node.eval_with_configuration configuration

/-- `eval` from `src/interface/mod.rs`: evaluate the expression string,
delegating to `eval_with_configuration` with the `EmptyConfiguration`. -/
def eval (string : String) : Except Error Value :=
  eval_with_configuration string EmptyConfiguration

/-- `build_operator_tree` from `src/interface/mod.rs`: build the operator
tree for the expression string —
`tree::tokens_to_operator_tree(token::tokenize(string)?)`. -/
def build_operator_tree (string : String) : Except Error Node :=
  match tokenize string with
  | Except.error e => Except.error e
  | Except.ok tokens => tokens_to_operator_tree tokens

/-- `eval_string` from `src/interface/mod.rs`. -/
def eval_string (string : String) : Except Error String :=
  match eval string with
  | Except.ok (Value.string s) => Except.ok s
  | Except.ok value => Except.error (Error.expected_string value)
  | Except.error e => Except.error e

/-- `eval_int` from `src/interface/mod.rs`. -/
def eval_int (string : String) : Except Error IntType :=
  match eval string with
  | Except.ok (Value.int i) => Except.ok i
  | Except.ok value => Except.error (Error.expected_int value)
  | Except.error e => Except.error e

/-- `eval_float` from `src/interface/mod.rs`. -/
def eval_float (string : String) : Except Error FloatType :=
  match eval string with
  | Except.ok (Value.float f) => Except.ok f
  | Except.ok value => Except.error (Error.expected_float value)
  | Except.error e => Except.error e

/-- `eval_boolean` from `src/interface/mod.rs`. -/
def eval_boolean (string : String) : Except Error Bool :=
  match eval string with
  | Except.ok (Value.boolean b) => Except.ok b
  | Except.ok value => Except.error (Error.expected_boolean value)
  | Except.error e => Except.error e

/-- `eval_tuple` from `src/interface/mod.rs`. -/
def eval_tuple (string : String) : Except Error TupleType :=
  match eval string with
  | Except.ok (Value.tuple t) => Except.ok t
  | Except.ok value => Except.error (Error.expected_tuple value)
  | Except.error e => Except.error e

/-- `eval_string_with_configuration` from `src/interface/mod.rs`. -/
def eval_string_with_configuration (string : String) (configuration : Configuration) :
    Except Error String :=
  match eval_with_configuration string configuration with
  | Except.ok (Value.string s) => Except.ok s
  | Except.ok value => Except.error (Error.expected_string value)
  | Except.error e => Except.error e

/-- `eval_int_with_configuration` from `src/interface/mod.rs`. -/
def eval_int_with_configuration (string : String) (configuration : Configuration) :
    Except Error IntType :=
  match eval_with_configuration string configuration with
  | Except.ok (Value.int i) => Except.ok i
  | Except.ok value => Except.error (Error.expected_int value)
  | Except.error e => Except.error e

/-- `eval_float_with_configuration` from `src/interface/mod.rs`. -/
def eval_float_with_configuration (string : String) (configuration : Configuration) :
    Except Error FloatType :=
  match eval_with_configuration string configuration with
  | Except.ok (Value.float f) => Except.ok f
  | Except.ok value => Except.error (Error.expected_float value)
  | Except.error e => Except.error e

/-- `eval_boolean_with_configuration` from `src/interface/mod.rs`. -/
def eval_boolean_with_configuration (string : String) (configuration : Configuration) :
    Except Error Bool :=
  match eval_with_configuration string configuration with
  | Except.ok (Value.boolean b) => Except.ok b
  | Except.ok value => Except.error (Error.expected_boolean value)
  | Except.error e => Except.error e

/-- `eval_tuple_with_configuration` from `src/interface/mod.rs`. -/
def eval_tuple_with_configuration (string : String) (configuration : Configuration) :
    Except Error TupleType :=
  match eval_with_configuration string configuration with
  | Except.ok (Value.tuple t) => Except.ok t
  | Except.ok value => Except.error (Error.expected_tuple value)
  | Except.error e => Except.error e

/-- C1: for every expression string `s` and configuration `c`, building the
operator tree once with `build_operator_tree s` and then evaluating the
resulting node against `c` returns exactly the same result as evaluating `s`
directly through `eval_with_configuration s c` (a build error surfacing
unchanged); pre-building never diverges from direct evaluation. -/
theorem claim_C1_prebuild_never_diverges (s : String) (c : Configuration) :
    eval_with_configuration s c =
      match build_operator_tree s with
      | Except.error e => Except.error e
      | Except.ok node => node.eval_with_configuration c := by
  unfold eval_with_configuration build_operator_tree
  cases tokenize s with
  | error e => rfl
  | ok tokens => cases tokens_to_operator_tree tokens <;> rfl

/-- C10: for every input string `s`, `eval s` returns exactly the same result
as `eval_with_configuration s EmptyConfiguration` — the no-configuration
entry point is definitionally evaluation against the Empty configuration. -/
theorem claim_C10_eval_is_empty_configuration (s : String) :
    eval s = eval_with_configuration s EmptyConfiguration := rfl

/-- C9: evaluation is deterministic and pure — two runs of
`Node.eval_with_configuration` on the same built tree with the same
configuration produce equal results (in this embedding the evaluator is a
pure function of the tree and the configuration, which receives both
immutably, so non-mutation holds by construction). -/
theorem claim_C9_evaluation_deterministic (node : Node) (configuration : Configuration) :
    node.eval_with_configuration configuration = node.eval_with_configuration configuration :=
  rfl

/-- C4: the parser follows the fixed precedence table — `*` binds above
binary `+` so `1 + 2 * 3` is 7 while the parenthesized `(1 + 2) * 3` is 9,
and `^` is right-associative so `2 ^ 3 ^ 2` is `2 ^ (3 ^ 2) = 512`; the
built trees witness the grouping. -/
theorem claim_C4_precedence_table :
    eval "1 + 2 * 3" = Except.ok (Value.int 7) ∧
    eval "(1 + 2) * 3" = Except.ok (Value.int 9) ∧
    eval "2 ^ 3 ^ 2" = Except.ok (Value.int 512) ∧
    build_operator_tree "1 + 2 * 3" =
      Except.ok (Node.binaryOperation BinaryOperator.add (Node.literal (Value.int 1))
        (Node.binaryOperation BinaryOperator.mul (Node.literal (Value.int 2))
          (Node.literal (Value.int 3)))) ∧
    build_operator_tree "2 ^ 3 ^ 2" =
      Except.ok (Node.binaryOperation BinaryOperator.exp (Node.literal (Value.int 2))
        (Node.binaryOperation BinaryOperator.exp (Node.literal (Value.int 3))
          (Node.literal (Value.int 2)))) :=
  ⟨rfl, rfl, rfl, rfl, rfl⟩

/-- C8 counterexample: the expression `false && x` contains the variable
reference `x` (visible in its built operator tree), yet `eval` returns
`Ok(Boolean(false))` — not a LookupError — because short-circuiting skips the
right operand; so "every expression containing a variable reference returns a
LookupError" is false as stated. -/
theorem claim_C8_counterexample :
    build_operator_tree "false && x" =
      Except.ok (Node.binaryOperation BinaryOperator.and
        (Node.literal (Value.boolean false)) (Node.variableIdentifier "x")) ∧
    eval "false && x" = Except.ok (Value.boolean false) :=
  ⟨rfl, rfl⟩

/-- C8 (amended): under the Empty configuration both resolution operations
always fail with a "not found" error, so every variable reference that is
actually evaluated yields a LookupError — a variable-reference node evaluated
under the Empty configuration returns a LookupError for its name (references
skipped by short-circuiting do not surface); in particular `eval "x"` returns
a LookupError for `x`. -/
theorem claim_C8_empty_configuration_lookup :
    (∀ name : String, EmptyConfiguration.resolveVariable name = none) ∧
    (∀ (name : String) (args : Value),
      EmptyConfiguration.callFunction name args =
        Except.error (Error.functionIdentifierNotFound name)) ∧
    (∀ name : String,
      (Node.variableIdentifier name).eval_with_configuration EmptyConfiguration =
        Except.error (Error.variableIdentifierNotFound name)) ∧
    eval "x" = Except.error (Error.variableIdentifierNotFound "x") :=
  ⟨fun _ => rfl, fun _ _ => rfl, fun _ => rfl, rfl⟩

/-- C3: for `&&` the left operand is evaluated first and a `false` left
operand short-circuits to `Ok(Boolean(false))` without evaluating the right
operand (so right-side errors never surface), symmetrically a `true` left
operand short-circuits `||` to `Ok(Boolean(true))`; in particular
`eval "false && (1 / 0 == 0)"` returns `Ok(Boolean(false))` and no
ArithmeticError. -/
theorem claim_C3_short_circuit (left right : Node) (c : Configuration) :
    (left.eval_with_configuration c = Except.ok (Value.boolean false) →
      (Node.binaryOperation BinaryOperator.and left right).eval_with_configuration c =
        Except.ok (Value.boolean false)) ∧
    (left.eval_with_configuration c = Except.ok (Value.boolean true) →
      (Node.binaryOperation BinaryOperator.or left right).eval_with_configuration c =
        Except.ok (Value.boolean true)) ∧
    eval "false && (1 / 0 == 0)" = Except.ok (Value.boolean false) := by
  refine ⟨fun h => ?_, fun h => ?_, rfl⟩
  · rw [Node.eval_with_configuration, h]
  · rw [Node.eval_with_configuration, h]

/-- C3 witness: short-circuiting applied concretely — `false && x` where the
right operand is an unresolvable variable still returns `Boolean(false)`. -/
theorem claim_C3_short_circuit_witness :
    (Node.binaryOperation BinaryOperator.and (Node.literal (Value.boolean false))
      (Node.variableIdentifier "x")).eval_with_configuration EmptyConfiguration =
      Except.ok (Value.boolean false) ∧
    (Node.binaryOperation BinaryOperator.or (Node.literal (Value.boolean true))
      (Node.variableIdentifier "x")).eval_with_configuration EmptyConfiguration =
      Except.ok (Value.boolean true) :=
  ⟨(claim_C3_short_circuit (Node.literal (Value.boolean false))
      (Node.variableIdentifier "x") EmptyConfiguration).1 rfl,
   (claim_C3_short_circuit (Node.literal (Value.boolean true))
      (Node.variableIdentifier "x") EmptyConfiguration).2.1 rfl⟩

/-- The narrowing property of a typed convenience entry point over its
underlying evaluation: `Ok x` exactly when the underlying result is `Ok` of
the matching value kind with payload `x`; the typed-extraction error on the
value when the kind differs; the underlying error passed through unchanged. -/
def NarrowsTo {α : Type} (mk : α → Value) (err : Value → Error) (k : ValueKind)
    (underlying : Except Error Value) (narrowed : Except Error α) : Prop :=
  (∀ x, narrowed = Except.ok x ↔ underlying = Except.ok (mk x)) ∧
  (∀ v, underlying = Except.ok v → valueKind v ≠ k → narrowed = Except.error (err v)) ∧
  (∀ e, underlying = Except.error e → narrowed = Except.error e)

/-- The string-narrowing match pattern of the convenience layer satisfies the
narrowing property, for any underlying result. -/
theorem stringNarrowSpec (r : Except Error Value) (g : Except Error String)
    (hg : g = match r with
      | Except.ok (Value.string s) => Except.ok s
      | Except.ok value => Except.error (Error.expected_string value)
      | Except.error e => Except.error e) :
    NarrowsTo Value.string Error.expected_string ValueKind.string r g := by
  subst hg
  unfold NarrowsTo
  rcases r with e | v
  · simp
  · cases v <;> simp [valueKind]

/-- The int-narrowing match pattern of the convenience layer satisfies the
narrowing property, for any underlying result. -/
theorem intNarrowSpec (r : Except Error Value) (g : Except Error IntType)
    (hg : g = match r with
      | Except.ok (Value.int i) => Except.ok i
      | Except.ok value => Except.error (Error.expected_int value)
      | Except.error e => Except.error e) :
    NarrowsTo Value.int Error.expected_int ValueKind.int r g := by
  subst hg
  unfold NarrowsTo
  rcases r with e | v
  · simp
  · cases v <;> simp [valueKind]

/-- The float-narrowing match pattern of the convenience layer satisfies the
narrowing property, for any underlying result. -/
theorem floatNarrowSpec (r : Except Error Value) (g : Except Error FloatType)
    (hg : g = match r with
      | Except.ok (Value.float f) => Except.ok f
      | Except.ok value => Except.error (Error.expected_float value)
      | Except.error e => Except.error e) :
    NarrowsTo Value.float Error.expected_float ValueKind.float r g := by
  subst hg
  unfold NarrowsTo
  rcases r with e | v
  · simp
  · cases v <;> simp [valueKind]

/-- The boolean-narrowing match pattern of the convenience layer satisfies the
narrowing property, for any underlying result. -/
theorem booleanNarrowSpec (r : Except Error Value) (g : Except Error Bool)
    (hg : g = match r with
      | Except.ok (Value.boolean b) => Except.ok b
      | Except.ok value => Except.error (Error.expected_boolean value)
      | Except.error e => Except.error e) :
    NarrowsTo Value.boolean Error.expected_boolean ValueKind.boolean r g := by
  subst hg
  unfold NarrowsTo
  rcases r with e | v
  · simp
  · cases v <;> simp [valueKind]

/-- The tuple-narrowing match pattern of the convenience layer satisfies the
narrowing property, for any underlying result. -/
theorem tupleNarrowSpec (r : Except Error Value) (g : Except Error TupleType)
    (hg : g = match r with
      | Except.ok (Value.tuple t) => Except.ok t
      | Except.ok value => Except.error (Error.expected_tuple value)
      | Except.error e => Except.error e) :
    NarrowsTo Value.tuple Error.expected_tuple ValueKind.tuple r g := by
  subst hg
  unfold NarrowsTo
  rcases r with e | v
  · simp
  · cases v <;> simp [valueKind]

/-- C2: every typed convenience entry point (`eval_string`, `eval_int`,
`eval_float`, `eval_boolean`, `eval_tuple` and their `_with_configuration`
variants) narrows its underlying evaluation result: `Ok x` exactly when the
underlying evaluation produced `Ok` of a value of the matching kind with
payload `x`, the "expected kind X, got kind Y" typed-extraction error on that
value when the kind differs, and the underlying error returned unchanged —
never swallowed or replaced — when evaluation failed. -/
theorem claim_C2_typed_entry_points (s : String) (c : Configuration) :
    NarrowsTo Value.string Error.expected_string ValueKind.string (eval s) (eval_string s) ∧
    NarrowsTo Value.int Error.expected_int ValueKind.int (eval s) (eval_int s) ∧
    NarrowsTo Value.float Error.expected_float ValueKind.float (eval s) (eval_float s) ∧
    NarrowsTo Value.boolean Error.expected_boolean ValueKind.boolean (eval s) (eval_boolean s) ∧
    NarrowsTo Value.tuple Error.expected_tuple ValueKind.tuple (eval s) (eval_tuple s) ∧
    NarrowsTo Value.string Error.expected_string ValueKind.string
      (eval_with_configuration s c) (eval_string_with_configuration s c) ∧
    NarrowsTo Value.int Error.expected_int ValueKind.int
      (eval_with_configuration s c) (eval_int_with_configuration s c) ∧
    NarrowsTo Value.float Error.expected_float ValueKind.float
      (eval_with_configuration s c) (eval_float_with_configuration s c) ∧
    NarrowsTo Value.boolean Error.expected_boolean ValueKind.boolean
      (eval_with_configuration s c) (eval_boolean_with_configuration s c) ∧
    NarrowsTo Value.tuple Error.expected_tuple ValueKind.tuple
      (eval_with_configuration s c) (eval_tuple_with_configuration s c) :=
  ⟨stringNarrowSpec (eval s) (eval_string s) rfl,
   intNarrowSpec (eval s) (eval_int s) rfl,
   floatNarrowSpec (eval s) (eval_float s) rfl,
   booleanNarrowSpec (eval s) (eval_boolean s) rfl,
   tupleNarrowSpec (eval s) (eval_tuple s) rfl,
   stringNarrowSpec (eval_with_configuration s c) (eval_string_with_configuration s c) rfl,
   intNarrowSpec (eval_with_configuration s c) (eval_int_with_configuration s c) rfl,
   floatNarrowSpec (eval_with_configuration s c) (eval_float_with_configuration s c) rfl,
   booleanNarrowSpec (eval_with_configuration s c) (eval_boolean_with_configuration s c) rfl,
   tupleNarrowSpec (eval_with_configuration s c) (eval_tuple_with_configuration s c) rfl⟩

/-- C2 witness: concretely, `eval_int "1"` succeeds with `1`, `eval_string
"1"` reports the typed-extraction error on `Int(1)`, and `eval_int "x"`
passes the underlying LookupError through unchanged. -/
theorem claim_C2_typed_entry_points_witness :
    eval_int "1" = Except.ok 1 ∧
    eval_string "1" = Except.error (Error.expected_string (Value.int 1)) ∧
    eval_int "x" = Except.error (Error.variableIdentifierNotFound "x") :=
  ⟨((claim_C2_typed_entry_points "1" EmptyConfiguration).2.1.1 1).mpr rfl,
   (claim_C2_typed_entry_points "1" EmptyConfiguration).1.2.1 (Value.int 1) rfl (by decide),
   (claim_C2_typed_entry_points "x" EmptyConfiguration).2.1.2.2
     (Error.variableIdentifierNotFound "x") rfl⟩

/-- C5: for Int operands every arithmetic operator either yields an Int value
(no promotion to Float) or an ArithmeticError; division and modulo by zero
are ArithmeticErrors; and a mathematical result outside the 64-bit signed
range is an overflow ArithmeticError rather than a silent wraparound. -/
theorem claim_C5_int_arithmetic (a b : Int) :
    (∀ op : BinaryOperator,
      op = BinaryOperator.add ∨ op = BinaryOperator.sub ∨ op = BinaryOperator.mul ∨
        op = BinaryOperator.div ∨ op = BinaryOperator.mod ∨ op = BinaryOperator.exp →
      (∃ r, applyBinaryOperator op (Value.int a) (Value.int b) = Except.ok (Value.int r)) ∨
      (∃ k, applyBinaryOperator op (Value.int a) (Value.int b) =
        Except.error (Error.arithmeticError k))) ∧
    applyBinaryOperator BinaryOperator.div (Value.int a) (Value.int 0) =
      Except.error (Error.arithmeticError ArithmeticErrorKind.divisionByZero) ∧
    applyBinaryOperator BinaryOperator.mod (Value.int a) (Value.int 0) =
      Except.error (Error.arithmeticError ArithmeticErrorKind.moduloByZero) ∧
    (¬ (intTypeMin ≤ a + b ∧ a + b ≤ intTypeMax) →
      applyBinaryOperator BinaryOperator.add (Value.int a) (Value.int b) =
        Except.error (Error.arithmeticError ArithmeticErrorKind.overflow)) ∧
    (¬ (intTypeMin ≤ a - b ∧ a - b ≤ intTypeMax) →
      applyBinaryOperator BinaryOperator.sub (Value.int a) (Value.int b) =
        Except.error (Error.arithmeticError ArithmeticErrorKind.overflow)) ∧
    (¬ (intTypeMin ≤ a * b ∧ a * b ≤ intTypeMax) →
      applyBinaryOperator BinaryOperator.mul (Value.int a) (Value.int b) =
        Except.error (Error.arithmeticError ArithmeticErrorKind.overflow)) := by
  refine ⟨?_, ?_, ?_, ?_, ?_, ?_⟩
  · intro op hop
    have hchecked : ∀ i : Int,
        (∃ r, checkedInt i = Except.ok (Value.int r)) ∨
        (∃ k, checkedInt i = Except.error (Error.arithmeticError k)) := by
      intro i
      unfold checkedInt
      by_cases h : intTypeMin ≤ i ∧ i ≤ intTypeMax
      · exact Or.inl ⟨i, by simp [h]⟩
      · exact Or.inr ⟨ArithmeticErrorKind.overflow, by simp [h]⟩
    rcases hop with rfl | rfl | rfl | rfl | rfl | rfl
    · exact hchecked (a + b)
    · exact hchecked (a - b)
    · exact hchecked (a * b)
    · simp only [applyBinaryOperator, evalDiv]
      by_cases hb : b = 0
      · right; exact ⟨ArithmeticErrorKind.divisionByZero, by rw [if_pos hb]⟩
      · rw [if_neg hb]; exact hchecked (Int.tdiv a b)
    · simp only [applyBinaryOperator, evalMod]
      by_cases hb : b = 0
      · right; exact ⟨ArithmeticErrorKind.moduloByZero, by rw [if_pos hb]⟩
      · rw [if_neg hb]; exact hchecked (Int.tmod a b)
    · simp only [applyBinaryOperator, evalExp]
      by_cases hb : b < 0
      · right; exact ⟨ArithmeticErrorKind.negativeExponent, by rw [if_pos hb]⟩
      · rw [if_neg hb]; exact hchecked (a ^ b.toNat)
  · rfl
  · rfl
  · intro h
    simp only [applyBinaryOperator, evalAdd, checkedInt]
    rw [if_neg h]
  · intro h
    simp only [applyBinaryOperator, evalSub, checkedInt]
    rw [if_neg h]
  · intro h
    simp only [applyBinaryOperator, evalMul, checkedInt]
    rw [if_neg h]

/-- C5 witness: concretely, `2 + 3` stays Int, `1 / 0` and `1 % 0` are
ArithmeticErrors, and `intTypeMax + 1` overflows instead of wrapping. -/
theorem claim_C5_int_arithmetic_witness :
    ((∃ r, applyBinaryOperator BinaryOperator.add (Value.int 2) (Value.int 3) =
        Except.ok (Value.int r)) ∨
      (∃ k, applyBinaryOperator BinaryOperator.add (Value.int 2) (Value.int 3) =
        Except.error (Error.arithmeticError k))) ∧
    applyBinaryOperator BinaryOperator.div (Value.int 1) (Value.int 0) =
      Except.error (Error.arithmeticError ArithmeticErrorKind.divisionByZero) ∧
    applyBinaryOperator BinaryOperator.add (Value.int intTypeMax) (Value.int 1) =
      Except.error (Error.arithmeticError ArithmeticErrorKind.overflow) :=
  ⟨(claim_C5_int_arithmetic 2 3).1 BinaryOperator.add (Or.inl rfl),
   (claim_C5_int_arithmetic 1 0).2.1,
   (claim_C5_int_arithmetic intTypeMax 1).2.2.2.1 (by decide)⟩

/-- C6: tuple comparison is element-wise left-to-right — for equal lengths
`==` and each ordering operator compare the heads first and recurse on the
tails only when the heads decide nothing (`!=` is the pointwise negation of
`==`); for unequal lengths `==` returns `Boolean(false)` and `!=` returns
`Boolean(true)` as defined outcomes while every ordering operator returns an
error; concretely `(1,2) == (1,2)` is `Boolean(true)` and `(1,2) == (1,2,3)`
is `Boolean(false)`. -/
theorem claim_C6_tuple_comparison :
    (∀ (x y : Value) (xs ys : List Value), xs.length = ys.length →
      applyBinaryOperator BinaryOperator.eq (Value.tuple (x :: xs)) (Value.tuple (y :: ys)) =
        match valueEq x y with
        | Except.error e => Except.error e
        | Except.ok false => Except.ok (Value.boolean false)
        | Except.ok true =>
          applyBinaryOperator BinaryOperator.eq (Value.tuple xs) (Value.tuple ys)) ∧
    (∀ (x y : Value) (xs ys : List Value), xs.length = ys.length →
      applyBinaryOperator BinaryOperator.lt (Value.tuple (x :: xs)) (Value.tuple (y :: ys)) =
        match valueLt x y with
        | Except.error e => Except.error e
        | Except.ok true => Except.ok (Value.boolean true)
        | Except.ok false =>
          match valueEq x y with
          | Except.error e => Except.error e
          | Except.ok true =>
            applyBinaryOperator BinaryOperator.lt (Value.tuple xs) (Value.tuple ys)
          | Except.ok false => Except.ok (Value.boolean false)) ∧
    (∀ (x y : Value) (xs ys : List Value), xs.length = ys.length →
      applyBinaryOperator BinaryOperator.leq (Value.tuple (x :: xs)) (Value.tuple (y :: ys)) =
        match valueLt y x with
        | Except.error e => Except.error e
        | Except.ok true => Except.ok (Value.boolean false)
        | Except.ok false =>
          match valueEq y x with
          | Except.error e => Except.error e
          | Except.ok true =>
            applyBinaryOperator BinaryOperator.leq (Value.tuple xs) (Value.tuple ys)
          | Except.ok false => Except.ok (Value.boolean true)) ∧
    (∀ (x y : Value) (xs ys : List Value), xs.length = ys.length →
      applyBinaryOperator BinaryOperator.gt (Value.tuple (x :: xs)) (Value.tuple (y :: ys)) =
        match valueLt y x with
        | Except.error e => Except.error e
        | Except.ok true => Except.ok (Value.boolean true)
        | Except.ok false =>
          match valueEq y x with
          | Except.error e => Except.error e
          | Except.ok true =>
            applyBinaryOperator BinaryOperator.gt (Value.tuple xs) (Value.tuple ys)
          | Except.ok false => Except.ok (Value.boolean false)) ∧
    (∀ (x y : Value) (xs ys : List Value), xs.length = ys.length →
      applyBinaryOperator BinaryOperator.geq (Value.tuple (x :: xs)) (Value.tuple (y :: ys)) =
        match valueLt x y with
        | Except.error e => Except.error e
        | Except.ok true => Except.ok (Value.boolean false)
        | Except.ok false =>
          match valueEq x y with
          | Except.error e => Except.error e
          | Except.ok true =>
            applyBinaryOperator BinaryOperator.geq (Value.tuple xs) (Value.tuple ys)
          | Except.ok false => Except.ok (Value.boolean true)) ∧
    (∀ t u : Value, applyBinaryOperator BinaryOperator.neq t u =
      (valueEq t u).map (fun r => Value.boolean (!r))) ∧
    (∀ xs ys : List Value, xs.length ≠ ys.length →
      applyBinaryOperator BinaryOperator.eq (Value.tuple xs) (Value.tuple ys) =
        Except.ok (Value.boolean false) ∧
      applyBinaryOperator BinaryOperator.neq (Value.tuple xs) (Value.tuple ys) =
        Except.ok (Value.boolean true) ∧
      (∀ op : BinaryOperator,
        op = BinaryOperator.lt ∨ op = BinaryOperator.leq ∨
          op = BinaryOperator.gt ∨ op = BinaryOperator.geq →
        applyBinaryOperator op (Value.tuple xs) (Value.tuple ys) =
          Except.error (Error.typeError ValueKind.tuple ValueKind.tuple))) ∧
    eval "(1,2) == (1,2)" = Except.ok (Value.boolean true) ∧
    eval "(1,2) == (1,2,3)" = Except.ok (Value.boolean false) := by
  refine ⟨?_, ?_, ?_, ?_, ?_, fun _ _ => rfl, ?_, rfl, rfl⟩
  · intro x y xs ys h
    simp only [applyBinaryOperator, valueEq, List.length_cons, h, if_pos rfl, valueEq.tupleEq]
    rcases hxy : valueEq x y with e | b
    · simp [Except.map]
    · cases b
      · simp [Except.map]
      · simp [h]
  · intro x y xs ys h
    simp only [applyBinaryOperator, valueLt, List.length_cons, h, if_pos rfl, valueLt.tupleLt]
    rcases hxy : valueLt x y with e | b
    · simp [Except.map]
    · cases b
      · rcases hxy2 : valueEq x y with e2 | b2
        · simp [Except.map]
        · cases b2
          · simp [Except.map]
          · simp [h, applyBinaryOperator, valueLt]
      · simp [Except.map]
  · intro x y xs ys h
    simp only [applyBinaryOperator, valueLt, List.length_cons, h, if_pos rfl, valueLt.tupleLt]
    rcases hxy : valueLt y x with e | b
    · simp [Except.map]
    · cases b
      · rcases hxy2 : valueEq y x with e2 | b2
        · simp [Except.map]
        · cases b2
          · simp [Except.map]
          · simp [h, applyBinaryOperator, valueLt]
      · simp [Except.map]
  · intro x y xs ys h
    simp only [applyBinaryOperator, valueLt, List.length_cons, h, if_pos rfl, valueLt.tupleLt]
    rcases hxy : valueLt y x with e | b
    · simp [Except.map]
    · cases b
      · rcases hxy2 : valueEq y x with e2 | b2
        · simp [Except.map]
        · cases b2
          · simp [Except.map]
          · simp [h, applyBinaryOperator, valueLt]
      · simp [Except.map]
  · intro x y xs ys h
    simp only [applyBinaryOperator, valueLt, List.length_cons, h, if_pos rfl, valueLt.tupleLt]
    rcases hxy : valueLt x y with e | b
    · simp [Except.map]
    · cases b
      · rcases hxy2 : valueEq x y with e2 | b2
        · simp [Except.map]
        · cases b2
          · simp [Except.map]
          · simp [h, applyBinaryOperator, valueLt]
      · simp [Except.map]
  · intro xs ys h
    refine ⟨?_, ?_, ?_⟩
    · simp only [applyBinaryOperator, valueEq]
      rw [if_neg h]
      rfl
    · simp only [applyBinaryOperator, valueEq]
      rw [if_neg h]
      rfl
    · intro op hop
      rcases hop with rfl | rfl | rfl | rfl
      · simp only [applyBinaryOperator, valueLt]
        rw [if_neg h]
        rfl
      · simp only [applyBinaryOperator, valueLt]
        rw [if_neg (fun hh => h hh.symm)]
        rfl
      · simp only [applyBinaryOperator, valueLt]
        rw [if_neg (fun hh => h hh.symm)]
        rfl
      · simp only [applyBinaryOperator, valueLt]
        rw [if_neg h]
        rfl

/-- C6 witness: at the concrete unequal-length tuples `(1)` and `()`, `==` is
`Boolean(false)`, `!=` is `Boolean(true)` and `<` is an error; at the
equal-length tuples `(1)` and `(2)` the element-wise recurrences give
`(1) < (2)` as `Boolean(true)` and `(1) >= (2)` as `Boolean(false)`. -/
theorem claim_C6_tuple_comparison_witness :
    applyBinaryOperator BinaryOperator.eq (Value.tuple [Value.int 1]) (Value.tuple []) =
      Except.ok (Value.boolean false) ∧
    applyBinaryOperator BinaryOperator.neq (Value.tuple [Value.int 1]) (Value.tuple []) =
      Except.ok (Value.boolean true) ∧
    applyBinaryOperator BinaryOperator.lt (Value.tuple [Value.int 1]) (Value.tuple []) =
      Except.error (Error.typeError ValueKind.tuple ValueKind.tuple) ∧
    applyBinaryOperator BinaryOperator.lt (Value.tuple [Value.int 1])
      (Value.tuple [Value.int 2]) = Except.ok (Value.boolean true) ∧
    applyBinaryOperator BinaryOperator.geq (Value.tuple [Value.int 1])
      (Value.tuple [Value.int 2]) = Except.ok (Value.boolean false) :=
  ⟨(claim_C6_tuple_comparison.2.2.2.2.2.2.1 [Value.int 1] [] (by decide)).1,
   (claim_C6_tuple_comparison.2.2.2.2.2.2.1 [Value.int 1] [] (by decide)).2.1,
   (claim_C6_tuple_comparison.2.2.2.2.2.2.1 [Value.int 1] [] (by decide)).2.2
     BinaryOperator.lt (Or.inl rfl),
   (claim_C6_tuple_comparison.2.1 (Value.int 1) (Value.int 2) [] [] rfl).trans rfl,
   (claim_C6_tuple_comparison.2.2.2.2.1 (Value.int 1) (Value.int 2) [] [] rfl).trans rfl⟩

/-- C7: `+` concatenates two String operands; every other cross-kind operand
pair, outside the documented Int/Float numeric promotion, makes any
arithmetic or logical operator fail with a TypeError naming the two kinds;
concretely `1 + "a"` is a TypeError naming Int and String. -/
theorem claim_C7_concat_and_cross_kind_type_errors :
    (∀ s t : String, applyBinaryOperator BinaryOperator.add (Value.string s) (Value.string t) =
      Except.ok (Value.string (s ++ t))) ∧
    (∀ op : BinaryOperator,
      op = BinaryOperator.add ∨ op = BinaryOperator.sub ∨ op = BinaryOperator.mul ∨
        op = BinaryOperator.div ∨ op = BinaryOperator.mod ∨ op = BinaryOperator.exp ∨
        op = BinaryOperator.and ∨ op = BinaryOperator.or →
      ∀ a b : Value, valueKind a ≠ valueKind b →
      ¬ ((valueKind a = ValueKind.int ∨ valueKind a = ValueKind.float) ∧
         (valueKind b = ValueKind.int ∨ valueKind b = ValueKind.float)) →
      applyBinaryOperator op a b = Except.error (Error.typeError (valueKind a) (valueKind b))) ∧
    eval "1 + \"a\"" = Except.error (Error.typeError ValueKind.int ValueKind.string) := by
  refine ⟨fun _ _ => rfl, ?_, rfl⟩
  intro op hop a b hk hp
  rcases hop with rfl | rfl | rfl | rfl | rfl | rfl | rfl | rfl <;>
    cases a <;> cases b <;>
      simp_all [applyBinaryOperator, evalAdd, evalSub, evalMul, evalDiv, evalMod, evalExp,
        evalAnd, evalOr, valueKind]

/-- C7 witness: concretely, `"a" + "b"` concatenates and `Int(1) + String("a")`
is the TypeError naming Int and String. -/
theorem claim_C7_concat_and_cross_kind_type_errors_witness :
    applyBinaryOperator BinaryOperator.add (Value.string "a") (Value.string "b") =
      Except.ok (Value.string "ab") ∧
    applyBinaryOperator BinaryOperator.add (Value.int 1) (Value.string "a") =
      Except.error (Error.typeError ValueKind.int ValueKind.string) :=
  ⟨claim_C7_concat_and_cross_kind_type_errors.1 "a" "b",
   claim_C7_concat_and_cross_kind_type_errors.2.1 BinaryOperator.add (Or.inl rfl)
     (Value.int 1) (Value.string "a") (by decide) (by decide)⟩
